import Mathlib

/-
  Verification of the sqlx_playground repository.

  The repository's source (src/main.rs) consists of test scenarios exercising
  a relational-database client core (bounded pool, statement executor, row
  decoder, transaction lifecycle, error classifier).  The core itself is the
  external sqlx crate and is not part of the source tree, so following the
  specification we model the core here, and embed each test scenario from the
  source faithfully against that model.
-/

/-- Modelled from the spec: a bound parameter or column value is a tagged
primitive: integer, text, boolean, null, or a sequence of integers for
ANY-style binding (the core is absent from the source tree). -/
inductive Value where
  | vInt (i : Int)
  | vText (s : String)
  | vBool (b : Bool)
  | vNull
  | vIntList (l : List Int)
  deriving Repr, DecidableEq

/-- Modelled from the spec: a Row is an ordered sequence of
(column name, typed value) pairs produced by one query. -/
def Row : Type := List (String × Value)

instance : DecidableEq Row := by
  unfold Row
  infer_instance

/-- Look a column up by name: first pair whose name matches exactly. -/
def lookupCol (row : Row) (c : String) : Option Value :=
  (List.find? (fun p => p.fst == c) row).map Prod.snd

/-- A stored row of the users table fixture.  Column defaults follow the
fixture the tests assert: note defaults to NULL, is_active to true. -/
structure StoredUser where
  id : Int
  name : String
  email : String
  note : Option String
  is_active : Bool
  deriving Repr, DecidableEq

/-- A stored row of the posts table fixture. -/
structure StoredPost where
  id : Int
  user_id : Int
  content : String
  deriving Repr, DecidableEq

/-- Modelled from the spec: the backend database state visible through one
Pool (tables users and posts plus their id sequences); the backend itself is
consumed, not part of the source tree. -/
structure DB where
  users : List StoredUser
  posts : List StoredPost
  nextUserId : Int
  nextPostId : Int
  deriving Repr, DecidableEq

/-- The empty database with id sequences at 1. -/
def DB.empty : DB := { users := [], posts := [], nextUserId := 1, nextPostId := 1 }

/-- Well-formedness: the id sequences are positive and every stored id is
positive and below its table's id sequence, so a freshly assigned id never
collides with a stored row and no stored row carries a negative id. -/
def DB.wf (db : DB) : Prop :=
  0 < db.nextUserId ∧ 0 < db.nextPostId ∧
  (∀ u ∈ db.users, 0 < u.id ∧ u.id < db.nextUserId) ∧
  (∀ p ∈ db.posts, 0 < p.id ∧ p.id < db.nextPostId)

/-- Modelled from the spec: constraint-violation subkinds, a closed set
extracted from backend-provided structured error metadata. -/
inductive ConstraintKind where
  | notNullViolation
  | uniqueViolation
  | foreignKeyViolation
  | checkViolation
  deriving Repr, DecidableEq

/-- Modelled from the spec: the closed error taxonomy of the core.  The
constraint subkind is a structured field of the error value itself, never
recovered from message text (the model carries no message text at all). -/
inductive DbError where
  | rowNotFound
  | constraintViolation (kind : ConstraintKind)
  | connectivity
  | decodeFailed
  | invalidState
  deriving Repr, DecidableEq

/-- Modelled from the spec: fetch_one over the rows a query matched returns
the first row, ignoring extras, and fails with NotFound on zero rows. -/
def fetch_one (rows : List Row) : Except DbError Row :=
  match rows with
  | [] => .error .rowNotFound
  | r :: _ => .ok r

/-- Modelled from the spec: fetch_optional over the rows a query matched
returns the first row or none; the zero-row case is not a failure. -/
def fetch_optional (rows : List Row) : Except DbError (Option Row) :=
  .ok rows.head?

/-- Modelled from the spec: fetch_all returns every matched row in
backend-delivery order. -/
def fetch_all (rows : List Row) : List Row :=
  rows

/-- Render a stored user as the Row its SELECT or RETURNING produces. -/
def userToRow (u : StoredUser) : Row :=
  [("id", .vInt u.id),
   ("name", .vText u.name),
   ("email", .vText u.email),
   ("note", match u.note with | some s => .vText s | none => .vNull),
   ("is_active", .vBool u.is_active)]

/-- Render a stored post as the Row its SELECT produces. -/
def postToRow (p : StoredPost) : Row :=
  [("id", .vInt p.id),
   ("user_id", .vInt p.user_id),
   ("content", .vText p.content)]

/-- Modelled from the spec: executing INSERT INTO users (name, email) with a
NULL email is rejected by the backend not-null constraint on email with the
structured subkind not-null; otherwise the row is appended with a fresh id,
note NULL and is_active true, and returned. -/
def insertUserRecord (db : DB) (name : String) (email : Option String) :
    Except DbError (DB × StoredUser) :=
  match email with
  | none => .error (.constraintViolation .notNullViolation)
  | some e =>
    let u : StoredUser :=
      { id := db.nextUserId, name := name, email := e, note := none, is_active := true }
    .ok ({ db with users := db.users ++ [u], nextUserId := db.nextUserId + 1 }, u)

/-- Modelled from the spec: executing INSERT INTO posts (user_id, content)
appends a post row with a fresh id and returns it. -/
def insertPostRecord (db : DB) (user_id : Int) (content : String) :
    Except DbError (DB × StoredPost) :=
  let p : StoredPost := { id := db.nextPostId, user_id := user_id, content := content }
  .ok ({ db with posts := db.posts ++ [p], nextPostId := db.nextPostId + 1 }, p)

/-- Modelled from the spec: SELECT * FROM users WHERE id equals the bound
parameter, rows delivered in table order. -/
def selectUsersById (db : DB) (i : Int) : List Row :=
  (db.users.filter (fun u => u.id == i)).map userToRow

/-- Modelled from the spec: SELECT * FROM users WHERE id = ANY of the bound
id list, rows delivered in table order. -/
def selectUsersByAnyIds (db : DB) (ids : List Int) : List Row :=
  (db.users.filter (fun u => ids.contains u.id)).map userToRow

/-- Modelled from the spec: SELECT * FROM posts WHERE user_id equals the
bound parameter, rows delivered in table order. -/
def selectPostsByUserId (db : DB) (i : Int) : List Row :=
  (db.posts.filter (fun p => p.user_id == i)).map postToRow

/-- Modelled from the spec: the bare parameter query SELECT with one bound
integer echoes the bound value back as a single one-column row. -/
def selectParamEcho (v : Int) : List Row :=
  [[("?column?", .vInt v)]]

/-- Modelled from the spec: one entry of a DecodeTarget, a statically
described field with its column name, nullability and skip marking. -/
structure FieldSpec where
  field : String
  column : String
  nullable : Bool
  skip : Bool
  deriving Repr, DecidableEq

/-- The dynamically typed outcome of decoding one field: a present value, an
absent value (NULL into an optional field), or the default the decoder
populates a skip-marked field with. -/
inductive FieldValue where
  | val (v : Value)
  | absent
  | skippedDefault
  deriving Repr, DecidableEq

/-- Modelled from the spec: decode one field of a DecodeTarget.  A
skip-marked field is never read from the row and is populated with the
default marker; otherwise the column is located by exact name (missing
column fails the decode), NULL decodes to absent for a nullable field and
fails the decode for a non-nullable one. -/
def decodeField (row : Row) (fs : FieldSpec) : Except DbError FieldValue :=
  if fs.skip then .ok .skippedDefault
  else
    match lookupCol row fs.column with
    | none => .error .decodeFailed
    | some .vNull => if fs.nullable then .ok .absent else .error .decodeFailed
    | some v => .ok (.val v)

/-- Modelled from the spec: decode a whole Row against a DecodeTarget, field
by field in declaration order; any field failure fails the whole decode. -/
def decodeRecord (row : Row) (target : List FieldSpec) :
    Except DbError (List (String × FieldValue)) :=
  match target with
  | [] => .ok []
  | fs :: rest =>
    match decodeField row fs with
    | .error e => .error e
    | .ok v =>
      match decodeRecord row rest with
      | .error e => .error e
      | .ok tail => .ok ((fs.field, v) :: tail)

/-- Read a non-nullable integer column, failing the decode on a missing
column, a NULL, or a non-integer value. -/
def getIntCol (row : Row) (c : String) : Except DbError Int :=
  match lookupCol row c with
  | some (.vInt i) => .ok i
  | _ => .error .decodeFailed

/-- Read a non-nullable text column. -/
def getTextCol (row : Row) (c : String) : Except DbError String :=
  match lookupCol row c with
  | some (.vText s) => .ok s
  | _ => .error .decodeFailed

/-- Read a non-nullable boolean column. -/
def getBoolCol (row : Row) (c : String) : Except DbError Bool :=
  match lookupCol row c with
  | some (.vBool b) => .ok b
  | _ => .error .decodeFailed

/-- Read a nullable text column: NULL decodes to none. -/
def getOptTextCol (row : Row) (c : String) : Except DbError (Option String) :=
  match lookupCol row c with
  | some (.vText s) => .ok (some s)
  | some .vNull => .ok none
  | _ => .error .decodeFailed

/-- The User record of the tests: id, name, email non-optional, note
optional, is_active non-optional. -/
structure User where
  id : Int
  name : String
  email : String
  note : Option String
  is_active : Bool
  deriving Repr, DecidableEq

/-- The Post record of the tests. -/
structure Post where
  id : Int
  user_id : Int
  content : String
  deriving Repr, DecidableEq

/-- The derived FromRow decoder of the User record: every field located by
its own name, note nullable. -/
def decodeUser (row : Row) : Except DbError User :=
  match getIntCol row "id" with
  | .error e => .error e
  | .ok id =>
  match getTextCol row "name" with
  | .error e => .error e
  | .ok name =>
  match getTextCol row "email" with
  | .error e => .error e
  | .ok email =>
  match getOptTextCol row "note" with
  | .error e => .error e
  | .ok note =>
  match getBoolCol row "is_active" with
  | .error e => .error e
  | .ok ia => .ok { id := id, name := name, email := email, note := note, is_active := ia }

/-- The derived FromRow decoder of the Post record. -/
def decodePost (row : Row) : Except DbError Post :=
  match getIntCol row "id" with
  | .error e => .error e
  | .ok id =>
  match getIntCol row "user_id" with
  | .error e => .error e
  | .ok uid =>
  match getTextCol row "content" with
  | .error e => .error e
  | .ok content => .ok { id := id, user_id := uid, content := content }

/-- The User record of the from_row_3 test, whose posts field is marked
skip and so is populated with its default (the empty vector) by the decoder. -/
structure UserWithPosts where
  id : Int
  name : String
  email : String
  note : Option String
  is_active : Bool
  posts : List Post
  deriving Repr, DecidableEq

/-- The derived FromRow decoder of UserWithPosts: the skip-marked posts
field is never read from the row and decodes to the empty list. -/
def decodeUserWithPosts (row : Row) : Except DbError UserWithPosts :=
  match decodeUser row with
  | .error e => .error e
  | .ok u =>
    .ok { id := u.id, name := u.name, email := u.email, note := u.note,
          is_active := u.is_active, posts := [] }

/-- Decode the first column of a row positionally as an integer, the tuple
decoding of the select_number test. -/
def decodeTuple1Int (row : Row) : Except DbError Int :=
  match row with
  | (_, .vInt i) :: _ => .ok i
  | _ => .error .decodeFailed

/-- Modelled from the spec: the Transaction state machine states. -/
inductive TxState where
  | active
  | committed
  | rolledBack
  deriving Repr, DecidableEq

/-- Modelled from the spec: a Transaction wraps one leased Connection; its
current field is the database state as seen through that Connection, with
the transaction writes applied but not yet published. -/
structure Tx where
  current : DB
  state : TxState
  deriving Repr, DecidableEq

/-- Modelled from the spec: backend commands a Transaction finalizer may
issue over its Connection before releasing the Lease. -/
inductive TxEvent where
  | evCommit
  | evRollback
  | evRelease
  deriving Repr, DecidableEq

/-- Modelled from the spec: begin a transaction over the pool database; it
starts Active and sees the current committed state. -/
def beginTx (db : DB) : Tx :=
  { current := db, state := .active }

/-- Modelled from the spec: an insert issued through a Transaction applies
to the transaction's own view only, and fails with InvalidState when the
transaction is no longer Active. -/
def txInsertUser (tx : Tx) (name : String) (email : Option String) :
    Except DbError (Tx × StoredUser) :=
  match tx.state with
  | .active =>
    match insertUserRecord tx.current name email with
    | .error e => .error e
    | .ok (db2, u) => .ok ({ tx with current := db2 }, u)
  | _ => .error .invalidState

/-- Modelled from the spec: commit is valid only from Active; it publishes
the transaction's view as the new pool database and enters the terminal
Committed state.  Any other state fails with InvalidState. -/
def commitTx (poolDb : DB) (tx : Tx) : Except DbError (DB × Tx) :=
  match tx.state with
  | .active => .ok (tx.current, { tx with state := .committed })
  | _ => .error .invalidState

/-- Modelled from the spec: rollback is valid only from Active; it discards
the transaction's view, leaving the pool database unchanged, and enters the
terminal RolledBack state. -/
def rollbackTx (poolDb : DB) (tx : Tx) : Except DbError (DB × Tx) :=
  match tx.state with
  | .active => .ok (poolDb, { tx with state := .rolledBack })
  | _ => .error .invalidState

/-- Modelled from the spec: the commands the finalizer issues when a
Transaction goes out of scope: a still-Active transaction gets a rollback
before the Lease release; a finalized one only releases the Lease.  A
commit is never issued here. -/
def dropTxEvents (tx : Tx) : List TxEvent :=
  match tx.state with
  | .active => [.evRollback, .evRelease]
  | _ => [.evRelease]

/-- Modelled from the spec: the pool database after a Transaction goes out
of scope.  Unpublished writes live only in the transaction's view, and the
finalizer never commits, so the pool database is returned unchanged. -/
def dropTxDb (poolDb : DB) (tx : Tx) : DB :=
  match tx.state with
  | .active => poolDb
  | _ => poolDb

/-- The insert_user helper of the tests: INSERT name and email RETURNING id
through fetch_one on the returned rows. -/
def insert_user (db : DB) (name : String) (email : String) :
    Except DbError (DB × Int) :=
  match insertUserRecord db name (some email) with
  | .error e => .error e
  | .ok (db2, u) => .ok (db2, u.id)

/-- The insert_post helper of the tests. -/
def insert_post (db : DB) (user_id : Int) (content : String) :
    Except DbError (DB × Int) :=
  match insertPostRecord db user_id content with
  | .error e => .error e
  | .ok (db2, p) => .ok (db2, p.id)

/-- The select_number test: bind 150 as an integer to SELECT with one bare
parameter, fetch_one, decode positionally as a one-element tuple. -/
def selectNumberScenario (v : Int) : Except DbError Int :=
  match fetch_one (selectParamEcho v) with
  | .error e => .error e
  | .ok row => decodeTuple1Int row

/-- The select_from_row and select_one_record_ok tests: insert a user, then
fetch_one by the returned id and decode the User record. -/
def insertFetchScenario (db : DB) (name : String) (email : String) :
    Except DbError User :=
  match insert_user db name email with
  | .error e => .error e
  | .ok (db2, uid) =>
    match fetch_one (selectUsersById db2 uid) with
    | .error e => .error e
    | .ok row => decodeUser row

/-- The select_multi_records_ok test: insert two users, fetch_all with both
ids bound through ANY, decode every returned row. -/
def selectMultiScenario (db : DB) : Except DbError (List User) :=
  match insert_user db "John Doe" "hoge@example.com" with
  | .error e => .error e
  | .ok (db2, uid1) =>
    match insert_user db2 "Hello" "hello@example.com" with
    | .error e => .error e
    | .ok (db3, uid2) =>
      (fetch_all (selectUsersByAnyIds db3 [uid1, uid2])).mapM decodeUser

/-- The select_not_found test: fetch_one by a never-assigned id. -/
def selectNotFoundScenario (db : DB) : Except DbError Row :=
  fetch_one (selectUsersById db (-1))

/-- The insert_err_null test: INSERT a user with only a name, leaving the
non-null email column NULL. -/
def insertNullScenario (db : DB) : Except DbError (DB × StoredUser) :=
  insertUserRecord db "John Doe" none

/-- The tx_commit test: begin, insert a user through the transaction,
commit, then fetch_one by the returned id on the pool and decode. -/
def txCommitScenario (db : DB) : Except DbError User :=
  let tx := beginTx db
  match txInsertUser tx "John Doe" (some "hoge") with
  | .error e => .error e
  | .ok (tx2, u) =>
    match commitTx db tx2 with
    | .error e => .error e
    | .ok (db2, _tx3) =>
      match fetch_one (selectUsersById db2 u.id) with
      | .error e => .error e
      | .ok row => decodeUser row

/-- The tx_explicit_rollback test: begin, insert a user through the
transaction, rollback, then fetch_optional by the returned id on the pool. -/
def txExplicitRollbackScenario (db : DB) : Except DbError (Option User) :=
  let tx := beginTx db
  match txInsertUser tx "John Doe" (some "hoge") with
  | .error e => .error e
  | .ok (tx2, u) =>
    match rollbackTx db tx2 with
    | .error e => .error e
    | .ok (db2, _tx3) =>
      match fetch_optional (selectUsersById db2 u.id) with
      | .error e => .error e
      | .ok none => .ok none
      | .ok (some row) =>
        match decodeUser row with
        | .error e => .error e
        | .ok u2 => .ok (some u2)

/-- The tx_implicit_rollback test: begin, insert a user through the
transaction, let the still-Active transaction go out of scope, then
fetch_optional by the returned id on the pool. -/
def txImplicitRollbackScenario (db : DB) : Except DbError (Option User) :=
  let tx := beginTx db
  match txInsertUser tx "John Doe" (some "hoge") with
  | .error e => .error e
  | .ok (tx2, u) =>
    let db2 := dropTxDb db tx2
    match fetch_optional (selectUsersById db2 u.id) with
    | .error e => .error e
    | .ok none => .ok none
    | .ok (some row) =>
      match decodeUser row with
      | .error e => .error e
      | .ok u2 => .ok (some u2)

/-- The from_row_3 test: insert a user and a post, fetch_one the user and
decode the UserWithPosts record whose posts field is skip-marked, fetch_all
the posts, then overwrite the posts field by hand. -/
def fromRow3Scenario (db : DB) : Except DbError UserWithPosts :=
  match insert_user db "name" "email" with
  | .error e => .error e
  | .ok (db2, uid) =>
    match insert_post db2 uid "body" with
    | .error e => .error e
    | .ok (db3, _pid) =>
      match fetch_one (selectUsersById db3 uid) with
      | .error e => .error e
      | .ok row =>
        match decodeUserWithPosts row with
        | .error e => .error e
        | .ok u =>
          match (fetch_all (selectPostsByUserId db3 uid)).mapM decodePost with
          | .error e => .error e
          | .ok posts => .ok { u with posts := posts }

/-- Filtering a user list for an id strictly above every stored id matches
nothing. -/
lemma filter_id_eq_nil (l : List StoredUser) (n : Int)
    (h : ∀ u ∈ l, u.id < n) :
    l.filter (fun u => u.id == n) = [] := by
  refine List.filter_eq_nil_iff.mpr ?_
  intro u hu
  simp only [beq_iff_eq]
  exact ne_of_lt (h u hu)

/-- Filtering a user list for an id at most n fails when every stored id is
at least n plus one; used for the never-assigned negative id. -/
lemma filter_id_eq_nil_of_pos (l : List StoredUser) (n : Int)
    (hn : n < 0) (h : ∀ u ∈ l, 0 < u.id) :
    l.filter (fun u => u.id == n) = [] := by
  refine List.filter_eq_nil_iff.mpr ?_
  intro u hu
  simp only [beq_iff_eq]
  exact ne_of_gt (lt_trans hn (h u hu))

/-- Filtering a user list for membership in an id list matches nothing when
every stored id is below every listed id. -/
lemma filter_contains_eq_nil (l : List StoredUser) (ids : List Int) (n : Int)
    (hl : ∀ u ∈ l, u.id < n) (hids : ∀ i ∈ ids, n ≤ i) :
    l.filter (fun u => ids.contains u.id) = [] := by
  refine List.filter_eq_nil_iff.mpr ?_
  intro u hu
  simp only [List.contains, List.elem_eq_mem, decide_eq_true_eq]
  intro hmem
  exact absurd (lt_of_lt_of_le (hl u hu) (hids _ hmem)) (lt_irrefl _)

/-- The derived User decoder inverts the rendering of a stored user row. -/
lemma decodeUser_userToRow (u : StoredUser) :
    decodeUser (userToRow u) =
      .ok { id := u.id, name := u.name, email := u.email,
            note := u.note, is_active := u.is_active } := by
  obtain ⟨i, nm, em, nt, ia⟩ := u
  cases nt <;> rfl

/-- The derived Post decoder inverts the rendering of a stored post row. -/
lemma decodePost_postToRow (p : StoredPost) :
    decodePost (postToRow p) =
      .ok { id := p.id, user_id := p.user_id, content := p.content } := by
  obtain ⟨i, uid, c⟩ := p
  rfl

/-- Every failure of the field decoder is the Decode error. -/
lemma decodeField_error_eq (row : Row) (fs : FieldSpec) (e : DbError)
    (h : decodeField row fs = .error e) : e = .decodeFailed := by
  unfold decodeField at h
  by_cases hs : fs.skip
  · simp [hs] at h
  · simp only [hs, if_false, Bool.false_eq_true] at h
    cases hlook : lookupCol row fs.column with
    | none => rw [hlook] at h; exact (Except.error.injEq _ _).mp h.symm
    | some v =>
      rw [hlook] at h
      cases v with
      | vNull =>
        by_cases hn : fs.nullable
        · simp [hn] at h
        · simp only [hn, if_false, Bool.false_eq_true] at h
          exact (Except.error.injEq _ _).mp h.symm
      | vInt i => simp at h
      | vText s => simp at h
      | vBool b => simp at h
      | vIntList l => simp at h

/-- A failing field anywhere in the DecodeTarget fails the whole record
decode with the Decode error. -/
lemma decodeRecord_error_of_field (row : Row) (target : List FieldSpec)
    (fs : FieldSpec) (hmem : fs ∈ target)
    (hf : decodeField row fs = .error .decodeFailed) :
    decodeRecord row target = .error .decodeFailed := by
  induction target with
  | nil => cases hmem
  | cons hd tl ih =>
    unfold decodeRecord
    cases hcase : decodeField row hd with
    | error e =>
      rw [decodeField_error_eq row hd e hcase]
    | ok v =>
      have hmem2 : fs ∈ tl := by
        rcases List.mem_cons.mp hmem with h1 | h2
        · subst h1; rw [hf] at hcase; cases hcase
        · exact h2
      rw [ih hmem2]

/-- The empty database is well formed. -/
lemma DB.wf_empty : DB.empty.wf := by
  refine ⟨by norm_num [DB.empty], by norm_num [DB.empty], ?_, ?_⟩ <;>
    intro x hx <;> simp [DB.empty] at hx

/-- Filtering two freshly inserted users out of a table whose prior ids are
all below the first fresh id keeps exactly the two fresh rows, in order. -/
lemma filter_any_two (l : List StoredUser) (n : Int) (hl : ∀ u ∈ l, u.id < n)
    (u1 u2 : StoredUser) (h1 : u1.id = n) (h2 : u2.id = n + 1) :
    ((l ++ [u1]) ++ [u2]).filter (fun u => [n, n + 1].contains u.id) = [u1, u2] := by
  rw [List.filter_append, List.filter_append]
  rw [filter_contains_eq_nil l [n, n + 1] n hl ?hids]
  case hids =>
    intro i hi
    rcases List.mem_cons.mp hi with rfl | hi2
    · exact le_refl _
    · rcases List.mem_cons.mp hi2 with rfl | hi3
      · omega
      · cases hi3
  simp [List.filter_cons, List.contains_cons, h1, h2]

/-- C1: a Transaction still Active when its scope ends gets a rollback
issued before the Lease release, never a commit, so the scenario of
beginning a transaction, inserting a user through it and dropping it leaves
the subsequent fetch of that id on the pool absent. -/
theorem tx_implicit_rollback_safe (db : DB) (hwf : db.wf) :
    (∀ tx : Tx, tx.state = .active → dropTxEvents tx = [.evRollback, .evRelease]) ∧
    (∀ tx : Tx, TxEvent.evCommit ∉ dropTxEvents tx) ∧
    txImplicitRollbackScenario db = .ok none := by
  refine ⟨?_, ?_, ?_⟩
  · intro tx h
    unfold dropTxEvents
    rw [h]
  · intro tx
    rcases tx with ⟨cur, st⟩
    cases st <;> simp [dropTxEvents]
  · have hfresh : db.users.filter (fun u => u.id == db.nextUserId) = [] :=
      filter_id_eq_nil db.users db.nextUserId (fun u hu => (hwf.2.2.1 u hu).2)
    simp [txImplicitRollbackScenario, beginTx, txInsertUser, insertUserRecord,
          dropTxDb, selectUsersById, fetch_optional, hfresh]

/-- The closed instance of the implicit-rollback property at the empty
database. -/
theorem tx_implicit_rollback_safe_witness :
    dropTxEvents { current := DB.empty, state := .active } =
      [.evRollback, .evRelease] ∧
    txImplicitRollbackScenario DB.empty = .ok none :=
  ⟨(tx_implicit_rollback_safe DB.empty DB.wf_empty).1 _ rfl,
   (tx_implicit_rollback_safe DB.empty DB.wf_empty).2.2⟩

/-- C2: committing publishes the transaction's insert so the subsequent
fetch on the pool decodes it, and explicit rollback from Active leaves the
subsequent fetch on the pool absent. -/
theorem tx_commit_rollback_visibility (db : DB) (hwf : db.wf) :
    txCommitScenario db =
      .ok { id := db.nextUserId, name := "John Doe", email := "hoge",
            note := none, is_active := true } ∧
    txExplicitRollbackScenario db = .ok none := by
  have hfresh : db.users.filter (fun u => u.id == db.nextUserId) = [] :=
    filter_id_eq_nil db.users db.nextUserId (fun u hu => (hwf.2.2.1 u hu).2)
  constructor
  · simp [txCommitScenario, beginTx, txInsertUser, insertUserRecord, commitTx,
          selectUsersById, fetch_one, List.filter_append, List.filter_cons,
          hfresh, decodeUser_userToRow]
  · simp [txExplicitRollbackScenario, beginTx, txInsertUser, insertUserRecord,
          rollbackTx, fetch_optional, selectUsersById, hfresh]

/-- The closed instance of the commit and rollback visibility property at
the empty database. -/
theorem tx_commit_rollback_visibility_witness :
    txCommitScenario DB.empty =
      .ok { id := 1, name := "John Doe", email := "hoge",
            note := none, is_active := true } ∧
    txExplicitRollbackScenario DB.empty = .ok none :=
  tx_commit_rollback_visibility DB.empty DB.wf_empty

/-- C3: fetch_one on zero matched rows fails with the NotFound error and on
a nonempty match returns the first row ignoring extras; in particular the
fetch of the never-assigned id in the select_not_found test fails with
NotFound. -/
theorem fetch_one_zero_rows_not_found (rows : List Row) (db : DB) (hwf : db.wf) :
    (rows = [] → fetch_one rows = .error .rowNotFound) ∧
    (∀ r rest, rows = r :: rest → fetch_one rows = .ok r) ∧
    selectNotFoundScenario db = .error .rowNotFound := by
  refine ⟨fun h => by rw [h]; rfl, fun r rest h => by rw [h]; rfl, ?_⟩
  have hfresh : db.users.filter (fun u => u.id == (-1 : Int)) = [] :=
    filter_id_eq_nil_of_pos db.users (-1) (by norm_num)
      (fun u hu => (hwf.2.2.1 u hu).1)
  unfold selectNotFoundScenario selectUsersById
  rw [hfresh]
  rfl

/-- The closed instance of the fetch_one property: the empty match errors
with NotFound, a two-row match returns the first row, and the scenario at
the empty database errors with NotFound. -/
theorem fetch_one_zero_rows_not_found_witness :
    fetch_one ([] : List Row) = .error .rowNotFound ∧
    fetch_one [[("id", Value.vInt 1)], [("id", Value.vInt 2)]] =
      .ok [("id", Value.vInt 1)] ∧
    selectNotFoundScenario DB.empty = .error .rowNotFound :=
  ⟨(fetch_one_zero_rows_not_found [] DB.empty DB.wf_empty).1 rfl,
   (fetch_one_zero_rows_not_found [[("id", Value.vInt 1)], [("id", Value.vInt 2)]]
      DB.empty DB.wf_empty).2.1 _ _ rfl,
   (fetch_one_zero_rows_not_found [] DB.empty DB.wf_empty).2.2⟩

/-- C4: fetch_optional returns the head of the matched rows without ever
failing, so the zero-row case is the absent value, not an error. -/
theorem fetch_optional_zero_rows_absent (rows : List Row) :
    fetch_optional rows = .ok rows.head? ∧
    fetch_optional ([] : List Row) = .ok none :=
  ⟨rfl, rfl⟩

/-- C5: fetch_all returns exactly the matched rows in delivery order, and
the two-user scenario returns exactly two decoded records, the first
matching the first insert and the second the second. -/
theorem fetch_all_k_rows_in_order (db : DB) (hwf : db.wf) (rows : List Row) :
    fetch_all rows = rows ∧
    (fetch_all rows).length = rows.length ∧
    selectMultiScenario db =
      .ok [{ id := db.nextUserId, name := "John Doe",
             email := "hoge@example.com", note := none, is_active := true },
           { id := db.nextUserId + 1, name := "Hello",
             email := "hello@example.com", note := none, is_active := true }] := by
  refine ⟨rfl, rfl, ?_⟩
  have hfilter := filter_any_two db.users db.nextUserId
    (fun u hu => (hwf.2.2.1 u hu).2)
    { id := db.nextUserId, name := "John Doe", email := "hoge@example.com",
      note := none, is_active := true }
    { id := db.nextUserId + 1, name := "Hello", email := "hello@example.com",
      note := none, is_active := true }
    rfl rfl
  simp only [selectMultiScenario, insert_user, insertUserRecord,
             selectUsersByAnyIds, fetch_all]
  rw [hfilter]
  simp [List.mapM, List.mapM.loop, decodeUser_userToRow, Except.bind,
        Bind.bind, Except.map, Functor.map, Pure.pure, Except.pure]

/-- The closed instance of the fetch_all property at the empty database. -/
theorem fetch_all_k_rows_in_order_witness :
    selectMultiScenario DB.empty =
      .ok [{ id := 1, name := "John Doe", email := "hoge@example.com",
             note := none, is_active := true },
           { id := 2, name := "Hello", email := "hello@example.com",
             note := none, is_active := true }] :=
  (fetch_all_k_rows_in_order DB.empty DB.wf_empty []).2.2

/-- C6: inserting a user with a NULL email is rejected with the structured
constraint violation of subkind not-null, never a generic error; the
subkind is a field of the error value, not parsed from any message text. -/
theorem insert_null_constraint_violation (db : DB) (name : String) :
    insertUserRecord db name none =
      .error (.constraintViolation .notNullViolation) ∧
    insertNullScenario db = .error (.constraintViolation .notNullViolation) :=
  ⟨rfl, rfl⟩

/-- C7: inserting a user and fetching it back by the returned id decodes
field for field to the written values, with note absent and is_active true,
for every name and email and in particular for the John Doe scenario. -/
theorem insert_fetch_roundtrip (db : DB) (hwf : db.wf) (name email : String) :
    insertFetchScenario db name email =
      .ok { id := db.nextUserId, name := name, email := email,
            note := none, is_active := true } ∧
    insertFetchScenario db "John Doe" "hoge@example.com" =
      .ok { id := db.nextUserId, name := "John Doe",
            email := "hoge@example.com", note := none, is_active := true } := by
  have hfresh : db.users.filter (fun u => u.id == db.nextUserId) = [] :=
    filter_id_eq_nil db.users db.nextUserId (fun u hu => (hwf.2.2.1 u hu).2)
  constructor <;>
    simp [insertFetchScenario, insert_user, insertUserRecord, selectUsersById,
          fetch_one, List.filter_append, List.filter_cons, hfresh,
          decodeUser_userToRow]

/-- The closed instance of the insert and fetch round trip at the empty
database. -/
theorem insert_fetch_roundtrip_witness :
    insertFetchScenario DB.empty "John Doe" "hoge@example.com" =
      .ok { id := 1, name := "John Doe", email := "hoge@example.com",
            note := none, is_active := true } :=
  (insert_fetch_roundtrip DB.empty DB.wf_empty "John Doe" "hoge@example.com").2

/-- C8: a NULL column decodes to absent for a nullable field and fails the
whole record decode with the Decode error for a non-nullable field; a user
row whose note column is NULL decodes with note absent. -/
theorem decode_nullability (row : Row) (target : List FieldSpec)
    (fs : FieldSpec) (hskip : fs.skip = false)
    (hnull : lookupCol row fs.column = some .vNull) :
    (fs.nullable = true → decodeField row fs = .ok .absent) ∧
    (fs.nullable = false → fs ∈ target →
      decodeRecord row target = .error .decodeFailed) ∧
    (∀ u : StoredUser, u.note = none →
      decodeUser (userToRow u) =
        .ok { id := u.id, name := u.name, email := u.email, note := none,
              is_active := u.is_active }) := by
  refine ⟨?_, ?_, ?_⟩
  · intro hn
    unfold decodeField
    simp [hskip, hnull, hn]
  · intro hn hmem
    refine decodeRecord_error_of_field row target fs hmem ?_
    unfold decodeField
    simp [hskip, hnull, hn]
  · intro u hu
    simp [decodeUser_userToRow, hu]

/-- The closed instance of the nullability property: decoding a one-field
target whose non-nullable column is NULL fails with the Decode error. -/
theorem decode_nullability_witness :
    decodeRecord [("note", Value.vNull)]
      [{ field := "note", column := "note", nullable := false, skip := false }] =
      .error .decodeFailed :=
  (decode_nullability [("note", Value.vNull)]
    [{ field := "note", column := "note", nullable := false, skip := false }]
    { field := "note", column := "note", nullable := false, skip := false }
    rfl rfl).2.1 rfl (List.mem_singleton.mpr rfl)

/-- C9: a skip-marked field is never read from the row (its decode does not
depend on the row and succeeds even on the empty row) and is populated with
the default value, and the UserWithPosts decoder always yields the empty
posts vector. -/
theorem decode_skip_default (row rowB : Row) (fs : FieldSpec)
    (hskip : fs.skip = true) :
    decodeField row fs = .ok .skippedDefault ∧
    decodeField row fs = decodeField rowB fs ∧
    decodeField ([] : List (String × Value)) fs = .ok .skippedDefault ∧
    (∀ u : StoredUser, decodeUserWithPosts (userToRow u) =
      .ok { id := u.id, name := u.name, email := u.email, note := u.note,
            is_active := u.is_active, posts := [] }) := by
  refine ⟨?_, ?_, ?_, ?_⟩
  · unfold decodeField
    simp [hskip]
  · unfold decodeField
    simp [hskip]
  · unfold decodeField
    simp [hskip]
  · intro u
    simp [decodeUserWithPosts, decodeUser_userToRow]

/-- The closed instance of the skip property at the posts field of the
from_row_3 record and a concrete row without that column. -/
theorem decode_skip_default_witness :
    decodeField [("id", Value.vInt 1)]
      { field := "posts", column := "posts", nullable := false, skip := true } =
      .ok .skippedDefault :=
  (decode_skip_default [("id", Value.vInt 1)] []
    { field := "posts", column := "posts", nullable := false, skip := true }
    rfl).1

/-- C10: the bare parameter query decodes positionally to the one-element
tuple holding the bound integer unchanged, for every integer and in
particular for 150. -/
theorem select_number_echo (v : Int) :
    selectNumberScenario v = .ok v ∧ selectNumberScenario 150 = .ok 150 :=
  ⟨rfl, rfl⟩
